import Mathlib

/-!
Verification development for the `spot` (spotify-find-preview) package.

The TypeScript source (`src/index.ts`) exports a single public operation
`searchAndGetLinks(songName, artistOrLimit?, limit = 5)` that

 1. validates the song name,
 2. reads two credentials from the environment (`createSpotifyApi`),
 3. obtains a client-credentials token,
 4. builds a search query (artist-qualified when the second argument is a
    truthy string),
 5. runs the catalog search,
 6. slices the returned items to the effective limit,
 7. scrapes each retained track page for CDN preview links
    (`getSpotifyLinks`), and
 8. assembles the `SearchResult`; every thrown failure is caught at the
    top level and normalised to `success = false`.

The shallow embedding below renders each of those steps as a total Lean
function.  External effects (environment variables, the credential grant,
the catalog search, the per-URL document fetch) are parametrised by an
`Env` record so that every behaviour of the collaborators — success,
thrown `Error` with a message, thrown non-`Error` value — is quantified
over.  A thrown JavaScript value is `JsError`: either an `Error` carrying
a message, or some other value, whose extracted message is the literal
"Unknown error" (mirroring `error instanceof Error ? error.message :
'Unknown error'`).
-/

/-- A thrown JavaScript value: an `Error` with a `.message`, or any other
value (which carries no message). -/
inductive JsError where
  | err (msg : String)
  | nonErr
deriving DecidableEq, Repr

/-- Message extraction used by both catch sites in the source:
`error instanceof Error ? error.message : 'Unknown error'`. -/
def JsError.message : JsError → String
  | .err m => m
  | .nonErr => "Unknown error"

/-- Track information returned by the search (interface `TrackInfo`). -/
structure TrackInfo where
  name : String
  spotifyUrl : String
  previewUrls : List String
  trackId : String
  albumName : String
  releaseDate : String
  popularity : Int
  durationMs : Int
deriving DecidableEq, Repr

/-- Search result containing all tracks found (interface `SearchResult`).
Optional fields of the TypeScript interface are `Option`s; an omitted
field is `none`. -/
structure SearchResult where
  success : Bool
  searchQuery : Option String := none
  results : List TrackInfo
  error : Option String := none
deriving DecidableEq, Repr

/-- A raw catalog track record (`SpotifyApi.TrackObjectFull`), flattened to
the fields the source reads: `name`, `artists[].name`,
`external_urls.spotify`, `id`, `album.name`, `album.release_date`,
`popularity`, `duration_ms`. -/
structure TrackCandidate where
  name : String
  artists : List String
  spotifyUrl : String
  id : String
  albumName : String
  releaseDate : String
  popularity : Int
  durationMs : Int
deriving DecidableEq, Repr

/-- The body of a catalog search response: the `tracks` field is optional
and, when present, carries the `items` list. -/
structure SearchBody where
  tracks : Option (List TrackCandidate)
deriving DecidableEq, Repr

/-- A fetched HTML document, reduced to what `getSpotifyLinks` scans: for
each element (in document order) the list of its attribute values (in
iteration order).  `cheerio.load` plus `$('*').each` with
`Object.values(element.attribs)` yields exactly this value sequence. -/
abbrev HtmlDoc := List (List String)

/-- Modelled behaviour of all external collaborators of one call:
the two environment variables, the credential grant, the catalog search
(as a function of the query string) and the HTTP fetch of a track page
(as a function of the URL). -/
structure Env where
  clientId : Option String
  clientSecret : Option String
  grant : Except JsError String
  search : String → Except JsError SearchBody
  fetch : String → Except JsError HtmlDoc

/-- JavaScript string truthiness for `string | undefined` values:
`undefined` and the empty string are falsy. -/
def strTruthy : Option String → Bool
  | none => false
  | some s => !(s == "")

/-- Helper `startsWithChars pat l` decides whether `pat` is an initial segment of
`l` (character-level helper for `String.prototype.includes`). -/
def startsWithChars : List Char → List Char → Bool
  | [], _ => true
  | _ :: _, [] => false
  | a :: pat, b :: l => a == b && startsWithChars pat l

/-- Helper `containsChars pat l` decides whether `pat` occurs contiguously inside
`l`. -/
def containsChars (pat : List Char) : List Char → Bool
  | [] => startsWithChars pat []
  | b :: l => startsWithChars pat (b :: l) || containsChars pat l

/-- Predicate `jsIncludes s pat` is `s.includes(pat)` from JavaScript: substring
containment. -/
def jsIncludes (s pat : String) : Bool :=
  containsChars pat.toList s.toList

/-- The fixed CDN-host marker scanned for by `getSpotifyLinks`. -/
def scdnMarker : String := "p.scdn.co"

/-- The attribute-value filter of `getSpotifyLinks`:
`value && typeof value === 'string' && value.includes('p.scdn.co')`
(the `typeof` guard is always true for attribute values; string
truthiness excludes the empty string). -/
def scdnPred (v : String) : Bool :=
  !(v == "") && jsIncludes v scdnMarker

/-- One insertion into a JavaScript `Set` viewed as its insertion-ordered
element list: a value already present is ignored, a new value goes to the
end. -/
def setAdd (acc : List String) (v : String) : List String :=
  if v ∈ acc then acc else acc ++ [v]

/-- Evaluation of `Array.from(new Set(...))` applied to a value sequence: left fold of
`Set.prototype.add`, yielding the distinct values in first-occurrence
order. -/
def jsSetOfList (vs : List String) : List String :=
  vs.foldl setAdd []

/-- Embedding of `getSpotifyLinks(url)`.  The fetch outcome for the URL is
passed in (`env.fetch url` at the call site).  On success the document's
attribute values are scanned, filtered by `scdnPred` and deduplicated via
`Set` semantics; any failure inside the `try` is rethrown as an `Error`
whose message is `"Failed to fetch preview URLs: " ++` the underlying
message. -/
def getSpotifyLinks (fetched : Except JsError HtmlDoc) : Except JsError (List String) :=
  match fetched with
  | .ok doc => .ok (jsSetOfList ((List.flatten doc).filter scdnPred))
  | .error e => .error (.err ("Failed to fetch preview URLs: " ++ e.message))

/-- The runtime type of the optional second argument of
`searchAndGetLinks`: a string, a number, or `undefined`. -/
inductive ArtistOrLimit where
  | str (s : String)
  | num (n : Int)
  | undef
deriving DecidableEq, Repr

/-- Parameter disambiguation for `artist`: only a string second argument
sets the artist (`artist = artistOrLimit` in the string branch, otherwise
`artist` stays `null`). -/
def resolveArtist : ArtistOrLimit → Option String
  | .str s => some s
  | .num _ => none
  | .undef => none

/-- Parameter disambiguation for `actualLimit`: a string second argument
defers to the third argument, a number second argument is itself the
limit, and an absent second argument gives the default 5. -/
def resolveLimit : ArtistOrLimit → Int → Int
  | .str _, limit => limit
  | .num n, _ => n
  | .undef, _ => 5

/-- Search-query construction: `if (artist) { searchQuery =
`track:"${songName}" artist:"${artist}"` }` — the artist is applied only
when truthy (non-null and non-empty). -/
def buildSearchQuery (songName : String) : Option String → String
  | some a =>
      if a = "" then songName
      else "track:\"" ++ songName ++ "\" artist:\"" ++ a ++ "\""
  | none => songName

/-- Embedding of `createSpotifyApi()`: reads both environment variables
and throws when either is falsy. -/
def createSpotifyApi (env : Env) : Except JsError Unit :=
  if !(strTruthy env.clientId && strTruthy env.clientSecret) then
    .error (.err "SPOTIFY_CLIENT_ID and SPOTIFY_CLIENT_SECRET environment variables are required")
  else
    .ok ()

/-- Per-candidate TrackInfo construction (the object literal inside the
`tracks.map` callback); `name` is the track title, `" - "`, and the artist
names joined by `", "`. -/
def mkTrackInfo (track : TrackCandidate) (previewUrls : List String) : TrackInfo :=
  { name := track.name ++ " - " ++ String.intercalate ", " track.artists
    spotifyUrl := track.spotifyUrl
    previewUrls := previewUrls
    trackId := track.id
    albumName := track.albumName
    releaseDate := track.releaseDate
    popularity := track.popularity
    durationMs := track.durationMs }

/-- Embedding of `items.slice(0, n)` with JavaScript semantics for the end index: a
non-negative `n` keeps the first `n` items (clamped to the length); a
negative `n` is counted from the end, keeping `length + n` items (clamped
to zero). -/
def jsSlice (n : Int) (xs : List TrackCandidate) : List TrackCandidate :=
  if n < 0 then xs.take ((xs.length : Int) + n).toNat
  else xs.take n.toNat

/-- Embedding of `Promise.all(tracks.map(...))`: extract preview URLs for
each retained candidate and build its `TrackInfo`, in candidate order; the
first (in candidate order) extraction failure rejects the whole
aggregate. -/
def buildResults (env : Env) : List TrackCandidate → Except JsError (List TrackInfo)
  | [] => .ok []
  | t :: ts =>
    match getSpotifyLinks (env.fetch t.spotifyUrl) with
    | .error e => .error e
    | .ok urls =>
      match buildResults env ts with
      | .error e => .error e
      | .ok rest => .ok (mkTrackInfo t urls :: rest)

/-- The zero-match result returned when `tracks` is absent or its items
list is empty. -/
def noSongsResult : SearchResult :=
  { success := false, error := some "No songs found", results := [] }

/-- The body of the `try` block of `searchAndGetLinks`: every `throw` is an
`Except.error`, every `return` an `Except.ok`. -/
def searchAndGetLinksAux (env : Env) (songName : String) (artistOrLimit : ArtistOrLimit)
    (limit : Int) : Except JsError SearchResult :=
  if songName = "" then
    .error (.err "Song name is required")
  else
    match createSpotifyApi env with
    | .error e => .error e
    | .ok _ =>
      match env.grant with
      | .error e => .error e
      | .ok _ =>
        match env.search (buildSearchQuery songName (resolveArtist artistOrLimit)) with
        | .error e => .error e
        | .ok body =>
          match body.tracks with
          | none => .ok noSongsResult
          | some items =>
            if items.length = 0 then
              .ok noSongsResult
            else
              match buildResults env (jsSlice (resolveLimit artistOrLimit limit) items) with
              | .error e => .error e
              | .ok results =>
                .ok { success := true
                      searchQuery := some (buildSearchQuery songName (resolveArtist artistOrLimit))
                      results := results
                      error := none }

/-- Embedding of the public `searchAndGetLinks`: the `try` body with the
top-level `catch` that normalises any thrown value into
`{ success: false, error: <message>, results: [] }`. -/
def searchAndGetLinks (env : Env) (songName : String) (artistOrLimit : ArtistOrLimit)
    (limit : Int := 5) : SearchResult :=
  match searchAndGetLinksAux env songName artistOrLimit limit with
  | .ok r => r
  | .error e => { success := false, error := some e.message, results := [] }

example : jsIncludes "https://p.scdn.co/mp3-preview/abc" scdnMarker = true := by decide
example : jsIncludes "https://open.spotify.com/track/x" scdnMarker = false := by decide
example : jsSetOfList ["a", "b", "a", "c", "b"] = ["a", "b", "c"] := by decide
example : buildSearchQuery "Shape of You" (some "Ed Sheeran")
    = "track:\"Shape of You\" artist:\"Ed Sheeran\"" := by decide
example : buildSearchQuery "Shape of You" (some "") = "Shape of You" := by decide
example : jsSlice (-1) [⟨"a", [], "", "", "", "", 0, 0⟩, ⟨"b", [], "", "", "", "", 0, 0⟩]
    = [⟨"a", [], "", "", "", "", 0, 0⟩] := by decide

/-! ### Concrete collaborator behaviours used by witnesses and counterexamples -/

/-- A sample catalog track. -/
def trackA : TrackCandidate :=
  { name := "Song A", artists := ["Alice", "Bob"],
    spotifyUrl := "https://open.spotify.com/track/a", id := "a",
    albumName := "Album A", releaseDate := "2020-01-01",
    popularity := 50, durationMs := 200000 }

/-- A second sample catalog track. -/
def trackB : TrackCandidate :=
  { name := "Song B", artists := ["Carol"],
    spotifyUrl := "https://open.spotify.com/track/b", id := "b",
    albumName := "Album B", releaseDate := "2021-02-02",
    popularity := 60, durationMs := 180000 }

/-- A sample scraped document: one CDN link appearing twice, plus a
non-matching attribute value. -/
def docA : HtmlDoc :=
  [["https://p.scdn.co/mp3-preview/aaa", "x"], ["https://p.scdn.co/mp3-preview/aaa"]]

/-- Collaborators that succeed with a two-item catalog response. -/
def envTwo : Env :=
  { clientId := some "id", clientSecret := some "secret",
    grant := .ok "token",
    search := fun _ => .ok ⟨some [trackA, trackB]⟩,
    fetch := fun _ => .ok docA }

/-- Collaborators that succeed with a one-item catalog response. -/
def envOne : Env :=
  { clientId := some "id", clientSecret := some "secret",
    grant := .ok "token",
    search := fun _ => .ok ⟨some [trackA]⟩,
    fetch := fun _ => .ok docA }

/-- Collaborators whose catalog search returns an empty item list. -/
def envEmpty : Env :=
  { clientId := some "id", clientSecret := some "secret",
    grant := .ok "token",
    search := fun _ => .ok ⟨some []⟩,
    fetch := fun _ => .ok docA }

/-- Collaborators whose credential grant rejects with a non-`Error`
value. -/
def envGrantFail : Env :=
  { clientId := some "id", clientSecret := some "secret",
    grant := .error .nonErr,
    search := fun _ => .ok ⟨some [trackA]⟩,
    fetch := fun _ => .ok docA }

/-- Collaborators for which the page fetch of `trackB` rejects while the
fetch of `trackA` succeeds. -/
def envFetchBFails : Env :=
  { clientId := some "id", clientSecret := some "secret",
    grant := .ok "token",
    search := fun _ => .ok ⟨some [trackA, trackB]⟩,
    fetch := fun u => if u = "https://open.spotify.com/track/a" then .ok docA else .error .nonErr }

/-! ### Substring helper lemmas -/

theorem startsWithChars_self_append (p r : List Char) :
    startsWithChars p (p ++ r) = true := by
  induction p with
  | nil => rfl
  | cons a p ih => simp [startsWithChars, ih]

theorem containsChars_of_startsWithChars {p l : List Char}
    (h : startsWithChars p l = true) : containsChars p l = true := by
  cases l with
  | nil => exact h
  | cons b l => simp [containsChars, h]

theorem containsChars_append_left (p xs : List Char) {ys : List Char}
    (h : containsChars p ys = true) : containsChars p (xs ++ ys) = true := by
  induction xs with
  | nil => simpa using h
  | cons x xs ih => simp [containsChars, ih]

theorem toList_append_eq (s t : String) : (s ++ t).toList = s.toList ++ t.toList := by
  simp [String.toList]

theorem jsIncludes_self_append (pat r : String) :
    jsIncludes (pat ++ r) pat = true := by
  unfold jsIncludes
  have h : (pat ++ r).toList = pat.toList ++ r.toList := by simp [String.toList]
  rw [h]
  exact containsChars_of_startsWithChars (startsWithChars_self_append _ _)

theorem jsIncludes_append_right (x : String) {y pat : String}
    (h : jsIncludes y pat = true) : jsIncludes (x ++ y) pat = true := by
  unfold jsIncludes at h ⊢
  have hx : (x ++ y).toList = x.toList ++ y.toList := by simp [String.toList]
  rw [hx]
  exact containsChars_append_left _ _ h

/-! ### Deduplication lemmas: `jsSetOfList` keeps first occurrences -/

/-- Recursive characterisation of keep-first deduplication. -/
def firstDedup : List String → List String
  | [] => []
  | v :: vs => v :: (firstDedup vs).filter (fun w => !(w == v))

theorem foldl_setAdd_eq (vs : List String) :
    ∀ acc : List String,
      vs.foldl setAdd acc = acc ++ (firstDedup vs).filter (fun w => decide (w ∉ acc)) := by
  induction vs with
  | nil => intro acc; simp [firstDedup]
  | cons v vs ih =>
    intro acc
    by_cases hv : v ∈ acc
    · have hadd : setAdd acc v = acc := by simp [setAdd, hv]
      calc (v :: vs).foldl setAdd acc
          = vs.foldl setAdd (setAdd acc v) := rfl
        _ = acc ++ (firstDedup vs).filter (fun w => decide (w ∉ acc)) := by rw [hadd, ih]
        _ = acc ++ (firstDedup (v :: vs)).filter (fun w => decide (w ∉ acc)) := by
            simp only [firstDedup, List.filter_cons]
            have hvdec : decide (v ∉ acc) = false := by simp [hv]
            rw [hvdec]
            simp only [Bool.false_eq_true, if_false, List.filter_filter]
            congr 1
            refine (List.filter_congr ?_).symm
            intro a _
            by_cases ha : a ∈ acc
            · simp [ha]
            · have hne : a ≠ v := fun h => ha (h ▸ hv)
              simp [ha, hne]
    · have hadd : setAdd acc v = acc ++ [v] := by simp [setAdd, hv]
      calc (v :: vs).foldl setAdd acc
          = vs.foldl setAdd (setAdd acc v) := rfl
        _ = (acc ++ [v]) ++ (firstDedup vs).filter (fun w => decide (w ∉ acc ++ [v])) := by
            rw [hadd, ih]
        _ = acc ++ (firstDedup (v :: vs)).filter (fun w => decide (w ∉ acc)) := by
            simp only [firstDedup, List.filter_cons]
            have hvdec : decide (v ∉ acc) = true := by simp [hv]
            rw [hvdec]
            simp only [if_true, List.append_assoc, List.singleton_append,
              List.filter_filter]
            congr 2
            refine List.filter_congr ?_
            intro a _
            by_cases ha : a ∈ acc
            · simp [ha]
            · by_cases hav : a = v
              · simp [hav]
              · simp [ha, hav, List.mem_append]

theorem jsSetOfList_eq_firstDedup (vs : List String) :
    jsSetOfList vs = firstDedup vs := by
  have h := foldl_setAdd_eq vs []
  simpa [jsSetOfList, List.filter_true] using h

theorem mem_firstDedup {a : String} : ∀ {vs : List String}, a ∈ firstDedup vs ↔ a ∈ vs := by
  intro vs
  induction vs with
  | nil => simp [firstDedup]
  | cons v vs ih =>
    simp only [firstDedup, List.mem_cons, List.mem_filter, ih]
    constructor
    · rintro (rfl | ⟨hmem, _⟩)
      · exact Or.inl rfl
      · exact Or.inr hmem
    · rintro (rfl | hmem)
      · exact Or.inl rfl
      · by_cases hav : a = v
        · exact Or.inl hav
        · exact Or.inr ⟨hmem, by simp [hav]⟩

theorem nodup_firstDedup : ∀ vs : List String, (firstDedup vs).Nodup := by
  intro vs
  induction vs with
  | nil => simp [firstDedup]
  | cons v vs ih =>
    simp only [firstDedup, List.nodup_cons]
    refine ⟨?_, ih.filter _⟩
    intro hmem
    have := (List.mem_filter.mp hmem).2
    simp at this

theorem pairwise_imp_mem {α : Type} {R S : α → α → Prop} :
    ∀ {l : List α}, (∀ a ∈ l, ∀ b ∈ l, R a b → S a b) → l.Pairwise R → l.Pairwise S := by
  intro l
  induction l with
  | nil => intro _ _; exact List.Pairwise.nil
  | cons x l ih =>
    intro himp hp
    rcases List.pairwise_cons.mp hp with ⟨hx, htail⟩
    refine List.pairwise_cons.mpr ⟨?_, ?_⟩
    · intro b hb
      exact himp x (List.mem_cons_self x l) b (List.mem_cons_of_mem x hb) (hx b hb)
    · exact ih (fun a ha b hb => himp a (List.mem_cons_of_mem x ha) b (List.mem_cons_of_mem x hb)) htail

theorem firstDedup_pairwise_indexOf (p : String → Bool) :
    ∀ vs : List String,
      List.Pairwise (fun a b => vs.indexOf a < vs.indexOf b) (firstDedup (vs.filter p)) := by
  intro vs
  induction vs with
  | nil => simp [firstDedup]
  | cons v vs ih =>
    by_cases hp : p v
    · rw [List.filter_cons_of_pos hp]
      simp only [firstDedup]
      refine List.pairwise_cons.mpr ⟨?_, ?_⟩
      · intro b hb
        have hbne : b ≠ v := by
          have := (List.mem_filter.mp hb).2
          simpa using this
        rw [List.indexOf_cons_self, List.indexOf_cons_ne vs hbne.symm]
        exact Nat.succ_pos _
      · have hsub : List.Sublist ((firstDedup (vs.filter p)).filter (fun w => !(w == v)))
            (firstDedup (vs.filter p)) := List.filter_sublist _
        have hpair := ih.sublist hsub
        refine pairwise_imp_mem (fun a ha b hb hR => ?_) hpair
        have hane : a ≠ v := by
          have := (List.mem_filter.mp ha).2; simpa using this
        have hbne : b ≠ v := by
          have := (List.mem_filter.mp hb).2; simpa using this
        rw [List.indexOf_cons_ne vs hane.symm, List.indexOf_cons_ne vs hbne.symm]
        omega
    · rw [List.filter_cons_of_neg hp]
      refine pairwise_imp_mem (fun a ha b hb hR => ?_) ih
      have hamem : a ∈ vs.filter p := mem_firstDedup.mp ha
      have hbmem : b ∈ vs.filter p := mem_firstDedup.mp hb
      have hane : a ≠ v := fun h => hp (h ▸ (List.mem_filter.mp hamem).2)
      have hbne : b ≠ v := fun h => hp (h ▸ (List.mem_filter.mp hbmem).2)
      rw [List.indexOf_cons_ne vs hane.symm, List.indexOf_cons_ne vs hbne.symm]
      omega

/-! ### Pipeline helper lemmas -/

theorem scdnPred_eq_jsIncludes (v : String) :
    scdnPred v = jsIncludes v scdnMarker := by
  by_cases hv : v = ""
  · subst hv; decide
  · simp [scdnPred, hv]

theorem buildResults_ok_spec (env : Env) :
    ∀ (ts : List TrackCandidate) (out : List TrackInfo),
      buildResults env ts = .ok out →
      out.length = ts.length ∧
      ∀ (i : Nat) (track : TrackCandidate), ts[i]? = some track →
        ∃ urls, getSpotifyLinks (env.fetch track.spotifyUrl) = .ok urls ∧
          out[i]? = some (mkTrackInfo track urls) := by
  intro ts
  induction ts with
  | nil =>
    intro out hout
    simp only [buildResults] at hout
    cases hout
    exact ⟨rfl, by intro i track h; simp at h⟩
  | cons t ts ih =>
    intro out hout
    simp only [buildResults] at hout
    cases hlinks : getSpotifyLinks (env.fetch t.spotifyUrl) with
    | error e => rw [hlinks] at hout; cases hout
    | ok urls =>
      rw [hlinks] at hout
      cases hrest : buildResults env ts with
      | error e => rw [hrest] at hout; cases hout
      | ok rest =>
        rw [hrest] at hout
        cases hout
        obtain ⟨hlen, hspec⟩ := ih rest hrest
        refine ⟨by simpa using hlen, ?_⟩
        intro i track hget
        cases i with
        | zero =>
          simp only [List.getElem?_cons_zero, Option.some.injEq] at hget
          subst hget
          exact ⟨urls, hlinks, by simp⟩
        | succ i =>
          simp only [List.getElem?_cons_succ] at hget ⊢
          exact hspec i track hget

theorem buildResults_error_at (env : Env) :
    ∀ (ts : List TrackCandidate) (j : Nat) (tj : TrackCandidate) (e : JsError),
      ts[j]? = some tj →
      env.fetch tj.spotifyUrl = .error e →
      (∀ (k : Nat) (tk : TrackCandidate), k < j → ts[k]? = some tk →
          (env.fetch tk.spotifyUrl).isOk = true) →
      buildResults env ts = .error (.err ("Failed to fetch preview URLs: " ++ e.message)) := by
  intro ts
  induction ts with
  | nil => intro j tj e hget; simp at hget
  | cons t ts ih =>
    intro j tj e hget hfail hok
    cases j with
    | zero =>
      simp only [List.getElem?_cons_zero, Option.some.injEq] at hget
      subst hget
      simp only [buildResults, getSpotifyLinks, hfail]
    | succ j =>
      simp only [List.getElem?_cons_succ] at hget
      have h0 : (env.fetch t.spotifyUrl).isOk = true :=
        hok 0 t (Nat.succ_pos j) (by simp)
      cases hft : env.fetch t.spotifyUrl with
      | error e0 => rw [hft] at h0; simp [Except.isOk, Except.toBool] at h0
      | ok doc =>
        have hrec := ih j tj e hget hfail
          (fun k tk hk hkget => hok (k + 1) tk (by omega) (by simpa using hkget))
        simp only [buildResults, getSpotifyLinks, hft, hrec]

theorem searchAndGetLinks_success_eq (env : Env) (songName : String)
    (artistOrLimit : ArtistOrLimit) (limit : Int) (token : String)
    (items : List TrackCandidate) (res : List TrackInfo)
    (hname : songName ≠ "")
    (hcreds : createSpotifyApi env = .ok ())
    (hgrant : env.grant = .ok token)
    (hsearch : env.search (buildSearchQuery songName (resolveArtist artistOrLimit))
        = .ok ⟨some items⟩)
    (hne : items ≠ [])
    (hbuild : buildResults env (jsSlice (resolveLimit artistOrLimit limit) items) = .ok res) :
    searchAndGetLinks env songName artistOrLimit limit =
      { success := true
        searchQuery := some (buildSearchQuery songName (resolveArtist artistOrLimit))
        results := res
        error := none } := by
  have hlen : items.length ≠ 0 := by simpa using fun h => hne (List.length_eq_zero.mp h)
  simp only [searchAndGetLinks, searchAndGetLinksAux, hname, if_false, hcreds, hgrant,
    hsearch, hlen, hbuild]

theorem searchAndGetLinksAux_error_normalized (env : Env) (songName : String)
    (artistOrLimit : ArtistOrLimit) (limit : Int) (e : JsError)
    (h : searchAndGetLinksAux env songName artistOrLimit limit = .error e) :
    searchAndGetLinks env songName artistOrLimit limit =
      { success := false, searchQuery := none, results := [], error := some e.message } := by
  simp [searchAndGetLinks, h]

theorem searchAndGetLinksAux_ok_cases (env : Env) (songName : String)
    (artistOrLimit : ArtistOrLimit) (limit : Int) (r : SearchResult)
    (h : searchAndGetLinksAux env songName artistOrLimit limit = .ok r) :
    r = noSongsResult ∨ (r.success = true ∧ r.error = none) := by
  unfold searchAndGetLinksAux at h
  split at h
  · cases h
  · split at h
    · cases h
    · split at h
      · cases h
      · split at h
        · cases h
        · split at h
          · cases h
            exact Or.inl rfl
          · split at h
            · cases h
              exact Or.inl rfl
            · split at h
              · cases h
              · cases h
                exact Or.inr ⟨rfl, rfl⟩

theorem searchAndGetLinks_result_cases (env : Env) (songName : String)
    (artistOrLimit : ArtistOrLimit) (limit : Int) :
    (∃ e, searchAndGetLinksAux env songName artistOrLimit limit = .error e ∧
        searchAndGetLinks env songName artistOrLimit limit =
          { success := false, searchQuery := none, results := [], error := some e.message }) ∨
    searchAndGetLinks env songName artistOrLimit limit = noSongsResult ∨
    ((searchAndGetLinks env songName artistOrLimit limit).success = true ∧
      (searchAndGetLinks env songName artistOrLimit limit).error = none) := by
  cases haux : searchAndGetLinksAux env songName artistOrLimit limit with
  | error e =>
    exact Or.inl ⟨e, rfl, searchAndGetLinksAux_error_normalized env songName artistOrLimit limit e haux⟩
  | ok r =>
    have hr : searchAndGetLinks env songName artistOrLimit limit = r := by
      simp [searchAndGetLinks, haux]
    rcases searchAndGetLinksAux_ok_cases env songName artistOrLimit limit r haux with hcase | hcase
    · exact Or.inr (Or.inl (hr.trans hcase))
    · exact Or.inr (Or.inr ⟨hr ▸ hcase.1, hr ▸ hcase.2⟩)

/-! ### Claim theorems -/

/-- Claim C9: for an empty song name the result is exactly
`{success: false, error: "Song name is required", results: []}`, for every
collaborator behaviour, second argument and limit. -/
theorem c9_empty_song_name_rejected (env : Env) (artistOrLimit : ArtistOrLimit) (limit : Int) :
    searchAndGetLinks env "" artistOrLimit limit =
      { success := false, searchQuery := none, results := [],
        error := some "Song name is required" } := by
  simp [searchAndGetLinks, searchAndGetLinksAux, JsError.message]

/-- Claim C10: the empty string as second argument takes the string branch
(artist is set to `""`, the effective limit is the third argument), yet the
query sent to the catalog is the raw song name because query construction
tests the artist's truthiness; end to end, a call with second argument `""`
and limit 1 against a two-item catalog reports the raw song name as its
search query and one result. -/
theorem c10_empty_string_second_arg (songName : String) (limit : Int) :
    resolveArtist (ArtistOrLimit.str "") = some "" ∧
    resolveLimit (ArtistOrLimit.str "") limit = limit ∧
    buildSearchQuery songName (resolveArtist (ArtistOrLimit.str "")) = songName ∧
    (searchAndGetLinks envTwo "Hello" (ArtistOrLimit.str "") 1).searchQuery = some "Hello" ∧
    (searchAndGetLinks envTwo "Hello" (ArtistOrLimit.str "") 1).results.length = 1 := by
  refine ⟨rfl, rfl, ?_, by decide, by decide⟩
  simp [buildSearchQuery, resolveArtist]

/-- Claim C8: when the catalog reports zero matches — `tracks` absent or
its item list empty — the call returns
`{success: false, error: "No songs found", results: []}` through the normal
return path (the `try` body resolves with `Except.ok`, no exception). -/
theorem c8_no_songs_found (env : Env) (songName : String) (artistOrLimit : ArtistOrLimit)
    (limit : Int) (token : String) (body : SearchBody)
    (hname : songName ≠ "")
    (hcreds : createSpotifyApi env = .ok ())
    (hgrant : env.grant = .ok token)
    (hsearch : env.search (buildSearchQuery songName (resolveArtist artistOrLimit)) = .ok body)
    (hempty : body.tracks = none ∨ body.tracks = some []) :
    searchAndGetLinksAux env songName artistOrLimit limit = .ok noSongsResult ∧
    searchAndGetLinks env songName artistOrLimit limit = noSongsResult ∧
    noSongsResult = { success := false, searchQuery := none, results := [],
                      error := some "No songs found" } := by
  have haux : searchAndGetLinksAux env songName artistOrLimit limit = .ok noSongsResult := by
    rcases hempty with h | h
    · simp [searchAndGetLinksAux, hname, hcreds, hgrant, hsearch, h]
    · simp [searchAndGetLinksAux, hname, hcreds, hgrant, hsearch, h]
  exact ⟨haux, by simp [searchAndGetLinks, haux], rfl⟩

/-- Witness for C8: a concrete environment whose catalog search returns an
empty item list. -/
theorem c8_no_songs_found_witness :
    searchAndGetLinksAux envEmpty "Shape of You" ArtistOrLimit.undef 5 = .ok noSongsResult ∧
    searchAndGetLinks envEmpty "Shape of You" ArtistOrLimit.undef 5 = noSongsResult ∧
    noSongsResult = { success := false, searchQuery := none, results := [],
                      error := some "No songs found" } :=
  c8_no_songs_found envEmpty "Shape of You" ArtistOrLimit.undef 5 "token" ⟨some []⟩
    (by decide) rfl rfl rfl (Or.inr rfl)

/-- Claim C1: the public operation is a total function into `SearchResult`
(no raw exception escapes); whenever the `try` body throws, the result is
`success = false`, `results = []`, `error` set to the thrown value's
message; a thrown `Error` contributes its own message and any other value
the literal "Unknown error"; and every failed result carries an error
message and an empty result list. -/
theorem c1_failure_normalization (env : Env) (songName : String)
    (artistOrLimit : ArtistOrLimit) (limit : Int) :
    (∀ e, searchAndGetLinksAux env songName artistOrLimit limit = .error e →
        searchAndGetLinks env songName artistOrLimit limit =
          { success := false, searchQuery := none, results := [], error := some e.message }) ∧
    ((searchAndGetLinks env songName artistOrLimit limit).success = false →
        (searchAndGetLinks env songName artistOrLimit limit).results = [] ∧
        (searchAndGetLinks env songName artistOrLimit limit).error ≠ none) ∧
    (∀ m, (JsError.err m).message = m) ∧
    JsError.nonErr.message = "Unknown error" := by
  refine ⟨fun e he => searchAndGetLinksAux_error_normalized env songName artistOrLimit limit e he,
    ?_, fun m => rfl, rfl⟩
  intro hfail
  rcases searchAndGetLinks_result_cases env songName artistOrLimit limit with
    ⟨e, _, hr⟩ | hr | ⟨hs, _⟩
  · rw [hr]; exact ⟨rfl, by simp⟩
  · rw [hr]; exact ⟨rfl, by simp [noSongsResult]⟩
  · simp [hs] at hfail

/-- Witness for C1: a concrete environment whose credential grant rejects
with a non-`Error` value produces the "Unknown error" message. -/
theorem c1_failure_normalization_witness :
    searchAndGetLinks envGrantFail "Shape of You" ArtistOrLimit.undef 5 =
      { success := false, searchQuery := none, results := [], error := some "Unknown error" } :=
  (c1_failure_normalization envGrantFail "Shape of You" ArtistOrLimit.undef 5).1
    JsError.nonErr rfl

/-- Counterexample to C4 as stated: with a numeric second argument `0` and a
non-empty catalog response, the call succeeds with an empty `results`, so
neither "results populated with success=true" nor "error set with
success=false" holds. -/
theorem c4_counterexample :
    (searchAndGetLinks envOne "Shape of You" (ArtistOrLimit.num 0) 5).success = true ∧
    (searchAndGetLinks envOne "Shape of You" (ArtistOrLimit.num 0) 5).results = [] ∧
    (searchAndGetLinks envOne "Shape of You" (ArtistOrLimit.num 0) 5).error = none := by
  decide

/-- Claim C4 (amended): exactly one of (success = true with error absent) or
(success = false with error set, and then results is the empty sequence)
holds; results is present in every outcome but may be empty on success. -/
theorem c4_success_error_dichotomy (env : Env) (songName : String)
    (artistOrLimit : ArtistOrLimit) (limit : Int) :
    (((searchAndGetLinks env songName artistOrLimit limit).success = true ∧
        (searchAndGetLinks env songName artistOrLimit limit).error = none) ∨
      ((searchAndGetLinks env songName artistOrLimit limit).success = false ∧
        (searchAndGetLinks env songName artistOrLimit limit).error ≠ none ∧
        (searchAndGetLinks env songName artistOrLimit limit).results = [])) ∧
    ¬(((searchAndGetLinks env songName artistOrLimit limit).success = true ∧
        (searchAndGetLinks env songName artistOrLimit limit).error = none) ∧
      ((searchAndGetLinks env songName artistOrLimit limit).success = false ∧
        (searchAndGetLinks env songName artistOrLimit limit).error ≠ none ∧
        (searchAndGetLinks env songName artistOrLimit limit).results = [])) := by
  constructor
  · rcases searchAndGetLinks_result_cases env songName artistOrLimit limit with
      ⟨e, _, hr⟩ | hr | ⟨hs, he⟩
    · right; rw [hr]; exact ⟨rfl, by simp, rfl⟩
    · right; rw [hr]; exact ⟨rfl, by simp [noSongsResult], rfl⟩
    · left; exact ⟨hs, he⟩
  · rintro ⟨⟨hs, _⟩, hs2, _, _⟩
    rw [hs] at hs2
    cases hs2

/-- Witness for C4: on a concrete successful call the first side of the
dichotomy holds. -/
theorem c4_success_error_dichotomy_witness :
    (searchAndGetLinks envOne "Shape of You" ArtistOrLimit.undef 5).success = true ∧
    (searchAndGetLinks envOne "Shape of You" ArtistOrLimit.undef 5).error = none := by
  rcases (c4_success_error_dichotomy envOne "Shape of You" ArtistOrLimit.undef 5).1 with h | h
  · exact h
  · exact absurd h.1 (by decide)

/-- Counterexample to C3 as stated: the empty string is typed as a string
second argument, yet the resolved query is the raw song name and contains
neither `track:"` nor `artist:"`. -/
theorem c3_counterexample :
    resolveArtist (ArtistOrLimit.str "") = some "" ∧
    buildSearchQuery "Shape of You" (resolveArtist (ArtistOrLimit.str "")) = "Shape of You" ∧
    jsIncludes (buildSearchQuery "Shape of You" (resolveArtist (ArtistOrLimit.str "")))
      "track:\"" = false ∧
    jsIncludes (buildSearchQuery "Shape of You" (resolveArtist (ArtistOrLimit.str "")))
      "artist:\"" = false := by
  decide

/-- Claim C3 (amended): for a non-empty string second argument the resolved
query is the field-qualified expression `track:"<songName>" artist:"<artist>"`
(both values embedded verbatim), which contains both the `track:"` and the
`artist:"` substring; for a numeric or absent second argument the query is
the song name unmodified. -/
theorem c3_query_construction (songName a : String) (n : Int) (h : a ≠ "") :
    buildSearchQuery songName (resolveArtist (ArtistOrLimit.str a)) =
      "track:\"" ++ songName ++ "\" artist:\"" ++ a ++ "\"" ∧
    jsIncludes (buildSearchQuery songName (resolveArtist (ArtistOrLimit.str a)))
      "track:\"" = true ∧
    jsIncludes (buildSearchQuery songName (resolveArtist (ArtistOrLimit.str a)))
      "artist:\"" = true ∧
    buildSearchQuery songName (resolveArtist (ArtistOrLimit.num n)) = songName ∧
    buildSearchQuery songName (resolveArtist ArtistOrLimit.undef) = songName := by
  have hq : buildSearchQuery songName (resolveArtist (ArtistOrLimit.str a)) =
      "track:\"" ++ songName ++ "\" artist:\"" ++ a ++ "\"" := by
    simp [buildSearchQuery, resolveArtist, h]
  refine ⟨hq, ?_, ?_, rfl, rfl⟩
  · rw [hq]
    unfold jsIncludes
    have hgoal : ("track:\"" ++ songName ++ "\" artist:\"" ++ a ++ "\"").toList =
        ("track:\"" : String).toList ++
          (songName.toList ++ (("\" artist:\"" : String).toList ++ (a.toList ++ ("\"" : String).toList))) := by
      simp only [toList_append_eq, List.append_assoc]
    rw [hgoal]
    exact containsChars_of_startsWithChars (startsWithChars_self_append _ _)
  · rw [hq]
    unfold jsIncludes
    have hy : ("\" artist:\"" : String).toList = ['\"', ' '] ++ ("artist:\"" : String).toList := by
      decide
    have hgoal : ("track:\"" ++ songName ++ "\" artist:\"" ++ a ++ "\"").toList =
        (("track:\"" : String).toList ++ (songName.toList ++ ['\"', ' '])) ++
          (("artist:\"" : String).toList ++ (a.toList ++ ("\"" : String).toList)) := by
      simp only [toList_append_eq, hy, List.append_assoc, List.cons_append, List.nil_append]
    rw [hgoal]
    exact containsChars_append_left _ _
      (containsChars_of_startsWithChars (startsWithChars_self_append _ _))

/-- Witness for C3: the amended statement at a concrete song and artist. -/
theorem c3_query_construction_witness :
    buildSearchQuery "Shape of You" (resolveArtist (ArtistOrLimit.str "Ed Sheeran")) =
      "track:\"" ++ "Shape of You" ++ "\" artist:\"" ++ "Ed Sheeran" ++ "\"" ∧
    jsIncludes (buildSearchQuery "Shape of You" (resolveArtist (ArtistOrLimit.str "Ed Sheeran")))
      "track:\"" = true ∧
    jsIncludes (buildSearchQuery "Shape of You" (resolveArtist (ArtistOrLimit.str "Ed Sheeran")))
      "artist:\"" = true ∧
    buildSearchQuery "Shape of You" (resolveArtist (ArtistOrLimit.num 3)) = "Shape of You" ∧
    buildSearchQuery "Shape of You" (resolveArtist ArtistOrLimit.undef) = "Shape of You" :=
  c3_query_construction "Shape of You" "Ed Sheeran" 3 (by decide)

/-- Counterexample to C2 as stated: the effective limit `-1` is ≤ 0, yet
against a two-item catalog response the retained sequence is not empty —
`slice(0, -1)` keeps all but the last item, so one result is returned. -/
theorem c2_counterexample :
    resolveLimit (ArtistOrLimit.num (-1)) 5 ≤ 0 ∧
    (searchAndGetLinks envTwo "Shape of You" (ArtistOrLimit.num (-1)) 5).success = true ∧
    (searchAndGetLinks envTwo "Shape of You" (ArtistOrLimit.num (-1)) 5).results.length = 1 := by
  decide

/-- Claim C2 (amended): for effective limit L and a non-empty item list,
`results.length` never exceeds the number of catalog matches; for L ≥ 0 it
never exceeds L, and L = 0 retains nothing; L beyond the item count retains
all items; a negative L keeps `max (items + L) 0` items (JavaScript
`slice(0, L)` counts a negative end from the end of the array). -/
theorem c2_limit_bounds (env : Env) (songName : String) (artistOrLimit : ArtistOrLimit)
    (limit : Int) (token : String) (items : List TrackCandidate) (res : List TrackInfo)
    (hname : songName ≠ "")
    (hcreds : createSpotifyApi env = .ok ())
    (hgrant : env.grant = .ok token)
    (hsearch : env.search (buildSearchQuery songName (resolveArtist artistOrLimit))
        = .ok ⟨some items⟩)
    (hne : items ≠ [])
    (hbuild : buildResults env (jsSlice (resolveLimit artistOrLimit limit) items) = .ok res) :
    (searchAndGetLinks env songName artistOrLimit limit).results.length ≤ items.length ∧
    (0 ≤ resolveLimit artistOrLimit limit →
      ((searchAndGetLinks env songName artistOrLimit limit).results.length : Int) ≤
        resolveLimit artistOrLimit limit) ∧
    (resolveLimit artistOrLimit limit = 0 →
      (searchAndGetLinks env songName artistOrLimit limit).results = []) ∧
    ((items.length : Int) ≤ resolveLimit artistOrLimit limit →
      (searchAndGetLinks env songName artistOrLimit limit).results.length = items.length) ∧
    (resolveLimit artistOrLimit limit < 0 →
      ((searchAndGetLinks env songName artistOrLimit limit).results.length : Int) =
        max ((items.length : Int) + resolveLimit artistOrLimit limit) 0) := by
  have hr := searchAndGetLinks_success_eq env songName artistOrLimit limit token items res
    hname hcreds hgrant hsearch hne hbuild
  have hres : (searchAndGetLinks env songName artistOrLimit limit).results = res := by rw [hr]
  have hlen : res.length = (jsSlice (resolveLimit artistOrLimit limit) items).length :=
    (buildResults_ok_spec env _ res hbuild).1
  rw [hres]
  rcases lt_or_le (resolveLimit artistOrLimit limit) 0 with hL | hL
  · have k : res.length = min ((items.length : Int) + resolveLimit artistOrLimit limit).toNat
        items.length := by
      rw [hlen]; unfold jsSlice; rw [if_pos hL]; exact List.length_take ..
    exact ⟨by omega, fun h => by omega,
      fun h => List.length_eq_zero.mp (by omega),
      fun h => by omega, fun h => by omega⟩
  · have k : res.length = min (resolveLimit artistOrLimit limit).toNat items.length := by
      rw [hlen]; unfold jsSlice; rw [if_neg (by omega)]; exact List.length_take ..
    exact ⟨by omega, fun h => by omega,
      fun h => List.length_eq_zero.mp (by omega),
      fun h => by omega, fun h => by omega⟩

/-- Witness for C2 (amended): against a two-item response with limit 10 all
items are retained and the bound holds. -/
theorem c2_limit_bounds_witness :
    (searchAndGetLinks envTwo "Shape of You" (ArtistOrLimit.num 10) 5).results.length ≤ 2 ∧
    (searchAndGetLinks envTwo "Shape of You" (ArtistOrLimit.num 10) 5).results.length = 2 := by
  have h := c2_limit_bounds envTwo "Shape of You" (ArtistOrLimit.num 10) 5 "token"
    [trackA, trackB]
    [mkTrackInfo trackA ["https://p.scdn.co/mp3-preview/aaa"],
     mkTrackInfo trackB ["https://p.scdn.co/mp3-preview/aaa"]]
    (by decide) rfl rfl rfl (by decide) rfl
  exact ⟨h.1, h.2.2.2.1 (by decide)⟩

/-- Claim C5: when the page fetch of one retained candidate fails and all
other retained candidates' fetches succeed, the whole call collapses to
`success = false`, `results = []`, and the error message is the failing
extraction's message: the fixed prefix "Failed to fetch preview URLs: "
followed by the underlying error's message ("Unknown error" when the
thrown value is not an `Error`); no partial results survive. -/
theorem c5_extraction_failure_aborts (env : Env) (songName : String)
    (artistOrLimit : ArtistOrLimit) (limit : Int) (token : String)
    (items : List TrackCandidate) (j : Nat) (tj : TrackCandidate) (e : JsError)
    (hname : songName ≠ "")
    (hcreds : createSpotifyApi env = .ok ())
    (hgrant : env.grant = .ok token)
    (hsearch : env.search (buildSearchQuery songName (resolveArtist artistOrLimit))
        = .ok ⟨some items⟩)
    (hne : items ≠ [])
    (hj : (jsSlice (resolveLimit artistOrLimit limit) items)[j]? = some tj)
    (hfail : env.fetch tj.spotifyUrl = .error e)
    (hothers : ∀ (k : Nat) (tk : TrackCandidate), k ≠ j →
        (jsSlice (resolveLimit artistOrLimit limit) items)[k]? = some tk →
        (env.fetch tk.spotifyUrl).isOk = true) :
    searchAndGetLinks env songName artistOrLimit limit =
      { success := false, searchQuery := none, results := [],
        error := some ("Failed to fetch preview URLs: " ++ e.message) } := by
  have hbuild := buildResults_error_at env (jsSlice (resolveLimit artistOrLimit limit) items)
    j tj e hj hfail (fun k tk hk hget => hothers k tk (by omega) hget)
  have hlen : items.length ≠ 0 := fun h => hne (List.length_eq_zero.mp h)
  have haux : searchAndGetLinksAux env songName artistOrLimit limit =
      .error (.err ("Failed to fetch preview URLs: " ++ e.message)) := by
    simp [searchAndGetLinksAux, hname, hcreds, hgrant, hsearch, hlen, hbuild]
  simp [searchAndGetLinks, haux, JsError.message]

/-- Witness for C5: a two-candidate environment where the first fetch
succeeds and the second rejects with a non-`Error` value. -/
theorem c5_extraction_failure_aborts_witness :
    searchAndGetLinks envFetchBFails "Shape of You" ArtistOrLimit.undef 5 =
      { success := false, searchQuery := none, results := [],
        error := some ("Failed to fetch preview URLs: " ++ JsError.nonErr.message) } :=
  c5_extraction_failure_aborts envFetchBFails "Shape of You" ArtistOrLimit.undef 5 "token"
    [trackA, trackB] 1 trackB JsError.nonErr (by decide) rfl rfl rfl (by decide) rfl rfl
    (by
      intro k tk hk hget
      have hred : jsSlice (resolveLimit ArtistOrLimit.undef 5) [trackA, trackB]
          = [trackA, trackB] := rfl
      rw [hred] at hget
      match k with
      | 0 =>
        simp only [List.getElem?_cons_zero, Option.some.injEq] at hget
        subst hget
        decide
      | 1 => exact absurd rfl hk
      | (n + 2) => simp at hget)

/-- Claim C6: for every successfully fetched document the extraction
returns exactly the attribute values containing the CDN marker, with equal
strings collapsed (the output is duplicate-free), ordered by first
occurrence in the document scan, and the output is empty exactly when no
attribute value matches the marker. -/
theorem c6_extraction_characterization (doc : HtmlDoc) :
    getSpotifyLinks (.ok doc) = .ok (jsSetOfList ((List.flatten doc).filter scdnPred)) ∧
    (jsSetOfList ((List.flatten doc).filter scdnPred)).Nodup ∧
    (∀ v, v ∈ jsSetOfList ((List.flatten doc).filter scdnPred) ↔
        v ∈ List.flatten doc ∧ jsIncludes v scdnMarker = true) ∧
    List.Pairwise (fun a b => (List.flatten doc).indexOf a < (List.flatten doc).indexOf b)
      (jsSetOfList ((List.flatten doc).filter scdnPred)) ∧
    (jsSetOfList ((List.flatten doc).filter scdnPred) = [] ↔
      ∀ v ∈ List.flatten doc, jsIncludes v scdnMarker = false) := by
  refine ⟨rfl, ?_, ?_, ?_, ?_⟩
  · rw [jsSetOfList_eq_firstDedup]
    exact nodup_firstDedup _
  · intro v
    rw [jsSetOfList_eq_firstDedup, mem_firstDedup, List.mem_filter]
    constructor
    · rintro ⟨hmem, hpred⟩
      exact ⟨hmem, by rw [← scdnPred_eq_jsIncludes]; exact hpred⟩
    · rintro ⟨hmem, hincl⟩
      exact ⟨hmem, by rw [scdnPred_eq_jsIncludes]; exact hincl⟩
  · rw [jsSetOfList_eq_firstDedup]
    exact firstDedup_pairwise_indexOf scdnPred (List.flatten doc)
  · rw [jsSetOfList_eq_firstDedup]
    constructor
    · intro hnil v hv
      cases hkind : jsIncludes v scdnMarker
      · rfl
      · exfalso
        have hmem : v ∈ firstDedup ((List.flatten doc).filter scdnPred) :=
          mem_firstDedup.mpr (List.mem_filter.mpr
            ⟨hv, by rw [scdnPred_eq_jsIncludes]; exact hkind⟩)
        rw [hnil] at hmem
        simp at hmem
    · intro hall
      have hfil : (List.flatten doc).filter scdnPred = [] := by
        rw [List.filter_eq_nil_iff]
        intro a ha
        rw [scdnPred_eq_jsIncludes]
        simp [hall a ha]
      rw [hfil]
      rfl

/-- Witness for C6: the characterisation applied to a concrete document
containing a duplicated CDN link and a non-matching value. -/
theorem c6_extraction_characterization_witness :
    getSpotifyLinks (Except.ok docA) =
      Except.ok (jsSetOfList ((List.flatten docA).filter scdnPred)) ∧
    ("https://p.scdn.co/mp3-preview/aaa" ∈ jsSetOfList ((List.flatten docA).filter scdnPred) ↔
      ("https://p.scdn.co/mp3-preview/aaa" ∈ List.flatten docA ∧
        jsIncludes "https://p.scdn.co/mp3-preview/aaa" scdnMarker = true)) := by
  have h := c6_extraction_characterization docA
  exact ⟨h.1, h.2.2.1 "https://p.scdn.co/mp3-preview/aaa"⟩

/-- Claim C7: on the success path the results are in one-to-one, same-order
correspondence with the retained candidate slice — `results[i]` is built
from the i-th retained candidate and its own extraction — and each track's
display name is the candidate's title, " - ", then the artist names joined
by ", " in catalog order. -/
theorem c7_results_order_and_name (env : Env) (songName : String)
    (artistOrLimit : ArtistOrLimit) (limit : Int) (token : String)
    (items : List TrackCandidate) (res : List TrackInfo)
    (hname : songName ≠ "")
    (hcreds : createSpotifyApi env = .ok ())
    (hgrant : env.grant = .ok token)
    (hsearch : env.search (buildSearchQuery songName (resolveArtist artistOrLimit))
        = .ok ⟨some items⟩)
    (hne : items ≠ [])
    (hbuild : buildResults env (jsSlice (resolveLimit artistOrLimit limit) items) = .ok res) :
    (searchAndGetLinks env songName artistOrLimit limit).results.length =
      (jsSlice (resolveLimit artistOrLimit limit) items).length ∧
    ∀ (i : Nat) (track : TrackCandidate),
      (jsSlice (resolveLimit artistOrLimit limit) items)[i]? = some track →
      ∃ urls, getSpotifyLinks (env.fetch track.spotifyUrl) = .ok urls ∧
        (searchAndGetLinks env songName artistOrLimit limit).results[i]? =
          some (mkTrackInfo track urls) ∧
        (mkTrackInfo track urls).name =
          track.name ++ " - " ++ String.intercalate ", " track.artists := by
  have hr := searchAndGetLinks_success_eq env songName artistOrLimit limit token items res
    hname hcreds hgrant hsearch hne hbuild
  have hres : (searchAndGetLinks env songName artistOrLimit limit).results = res := by rw [hr]
  obtain ⟨hlen, hspec⟩ := buildResults_ok_spec env _ res hbuild
  rw [hres]
  refine ⟨hlen, fun i track hget => ?_⟩
  obtain ⟨urls, hurls, hout⟩ := hspec i track hget
  exact ⟨urls, hurls, hout, rfl⟩

/-- Witness for C7: the correspondence at index 0 of a concrete two-item
call. -/
theorem c7_results_order_and_name_witness :
    (searchAndGetLinks envTwo "Shape of You" ArtistOrLimit.undef 5).results.length =
      (jsSlice (resolveLimit ArtistOrLimit.undef 5) [trackA, trackB]).length ∧
    (∃ urls, getSpotifyLinks (envTwo.fetch trackA.spotifyUrl) = .ok urls ∧
      (searchAndGetLinks envTwo "Shape of You" ArtistOrLimit.undef 5).results[0]? =
        some (mkTrackInfo trackA urls) ∧
      (mkTrackInfo trackA urls).name =
        trackA.name ++ " - " ++ String.intercalate ", " trackA.artists) := by
  have h := c7_results_order_and_name envTwo "Shape of You" ArtistOrLimit.undef 5 "token"
    [trackA, trackB]
    [mkTrackInfo trackA ["https://p.scdn.co/mp3-preview/aaa"],
     mkTrackInfo trackB ["https://p.scdn.co/mp3-preview/aaa"]]
    (by decide) rfl rfl rfl (by decide) rfl
  exact ⟨h.1, h.2 0 trackA rfl⟩
